import Mathlib

/-!
Verification of the WSGI tracing middleware
(`opentelemetry/instrumentation/wsgi/__init__.py`) by shallow embedding.

The Python code is translated definition-by-definition:
* the WSGI `environ` dictionary and attribute dictionaries become
  association lists with Python-dict update semantics (`dictSet`);
* Python values that may be `None` become `PyVal`;
* fallible code (unguarded `int(...)`, tuple unpacking of `str.split`)
  returns `Except PyExc`;
* the middleware's side effects (metric updates, span calls, hook calls,
  generator cleanup) become explicit event traces (`Ev`), and the
  response-body generator becomes a small-step machine (`genStep`) driven
  by the consuming server's `next`/`close` calls, following Python
  generator semantics (in particular: `close()` on a generator that was
  never started does not run the body, hence no `finally` block).

Collaborators that live outside the embedded file
(`opentelemetry.util.http.sanitize_method`, `remove_url_credentials`,
`wsgiref.util.request_uri`, `http_status_to_status_code`) are modelled
from the spec; each carries a doc comment saying so.
-/

namespace Wsgi

/-- A Python scalar value as stored in the attribute dictionaries: `None`,
a string, or an int. -/
inductive PyVal where
  | none : PyVal
  | str (s : String) : PyVal
  | int (i : Int) : PyVal
  deriving DecidableEq, Repr

/-- A Python exception (only `ValueError` arises in the embedded code). -/
inductive PyExc where
  | valueError (msg : String) : PyExc
  deriving DecidableEq, Repr

/-- Python `str(exc)`: the exception's message. -/
def excStr : PyExc → String
  | .valueError m => m

/-- Python `repr` of a string (quoting; escape sequences are out of scope
for the inputs that occur here). -/
def pyRepr (s : String) : String := "'" ++ s ++ "'"

/-- The WSGI `environ`: a dictionary from string keys to string values,
modelled as an association list with distinct-key dictionary lookup. -/
abbrev Env := List (String × String)

/-- Python `environ.get(key)`. -/
def envGet (environ : Env) (k : String) : Option String :=
  (environ.find? (fun p => p.1 == k)).map (·.2)

/-- Python `environ.get(key, default)`. -/
def envGetD (environ : Env) (k d : String) : String :=
  (envGet environ k).getD d

/-- An attribute dictionary (span attributes, metric attributes). -/
abbrev Attrs := List (String × PyVal)

/-- Python `d[key] = value`: overwrite in place if the key exists
(preserving its position), otherwise append. -/
def dictSet : Attrs → String → PyVal → Attrs
  | [], k, v => [(k, v)]
  | (k', v') :: rest, k, v =>
      if k' == k then (k', v) :: rest else (k', v') :: dictSet rest k v

/-- Python `d.get(key)` on an attribute dictionary. -/
def lookupAttr (a : Attrs) (k : String) : Option PyVal :=
  (a.find? (fun p => p.1 == k)).map (·.2)

/-- Python `key in d`. -/
def hasKey (a : Attrs) (k : String) : Bool :=
  a.any (fun p => p.1 == k)

/-- Source helper `setifnotnone(dic, key, value)`: set only when the value
is not `None`. -/
def setifnotnone (dic : Attrs) (key : String) : Option PyVal → Attrs
  | some v => dictSet dic key v
  | Option.none => dic

/-! ### String helpers (ASCII semantics of the Python string methods used) -/

/-- `'0' ≤ c ≤ '9'`. -/
def isDigitChar (c : Char) : Bool := '0' ≤ c && c ≤ '9'

/-- Python `str.upper()` (the strings involved are ASCII). -/
def strUpper (s : String) : String := String.mk (s.data.map Char.toUpper)

/-- Python `str.lower()` (the strings involved are ASCII). -/
def strLower (s : String) : String := String.mk (s.data.map Char.toLower)

/-- Python `str.replace(a, b)` for one-character `a`, `b` (the only form
the source uses: `-`↔`_`). -/
def replaceChar (s : String) (a b : Char) : String :=
  String.mk (s.data.map (fun c => if c == a then b else c))

/-- Python `str.startswith(pfx)`. -/
def strStartsWith (s pfx : String) : Bool := pfx.data.isPrefixOf s.data

/-- Python `str[n:]`. -/
def strDrop (s : String) (n : Nat) : String := String.mk (s.data.drop n)

/-- Python `str.strip()` (whitespace at both ends). -/
def pyStrip (s : String) : String :=
  String.mk (((s.data.dropWhile Char.isWhitespace).reverse.dropWhile
      Char.isWhitespace).reverse)

/-- Digit run of a Python int literal: digits with single underscores
allowed between digits; the head must be a digit (checked by the caller);
produces the digit values. -/
def pyDigitsAux : List Char → Option (List Nat)
  | [] => some []
  | c :: rest =>
      if isDigitChar c then (pyDigitsAux rest).map (fun l => (c.toNat - 48) :: l)
      else if c == '_' then
        match rest with
        | d :: _ => if isDigitChar d then pyDigitsAux rest else Option.none
        | [] => Option.none
      else Option.none

/-- Unsigned part of Python `int(str)`: nonempty, starts with a digit,
underscores only between digits. -/
def pyUnsigned (cs : List Char) : Option Nat :=
  match cs with
  | [] => Option.none
  | c :: _ =>
      if isDigitChar c then
        (pyDigitsAux cs).map (fun l => l.foldl (fun a d => 10 * a + d) 0)
      else Option.none

/-- Python `int(s)` for a base-10 string: surrounding whitespace stripped,
optional sign, then digits (with underscore grouping). `Option.none` means
`int` raises `ValueError`. Non-ASCII digits are out of scope. -/
def pyStrToInt (s : String) : Option Int :=
  match (pyStrip s).data with
  | '+' :: rest => (pyUnsigned rest).map Int.ofNat
  | '-' :: rest => (pyUnsigned rest).map (fun n => -(n : Int))
  | cs => (pyUnsigned cs).map Int.ofNat

/-- Python `s.split(" ", 1)` when it yields two parts: the text before the
first space and the text after it; `Option.none` when `s` has no space (in
which case `a, b = s.split(" ", 1)` raises `ValueError`). -/
def splitCharsOnce : List Char → Option (List Char × List Char)
  | [] => Option.none
  | c :: rest =>
      if c == ' ' then some ([], rest)
      else match splitCharsOnce rest with
        | some (a, b) => some (c :: a, b)
        | Option.none => Option.none

/-- String form of `splitCharsOnce`. -/
def splitOnceSpace (s : String) : Option (String × String) :=
  (splitCharsOnce s.data).map (fun p => (String.mk p.1, String.mk p.2))

/-! ### `_parse_status_code` -/

/-- Source `_parse_status_code(resp_status)`: the tuple unpacking
`status_code, _ = resp_status.split(" ", 1)` happens before the
`try`, so a status with no space raises; inside the `try`, `int` failure
is caught and yields `None`. -/
def parse_status_code (resp_status : String) : Except PyExc (Option Int) :=
  match splitOnceSpace resp_status with
  | Option.none =>
      .error (.valueError "not enough values to unpack (expected 2, got 1)")
  | some (status_code, _) => .ok (pyStrToInt status_code)

/-! ### Method sanitization and the default span name -/

/-- The fixed known-method set of the method sanitizer. -/
def knownMethods : List String :=
  ["GET", "HEAD", "POST", "PUT", "DELETE", "CONNECT", "OPTIONS", "TRACE",
   "PATCH"]

/-- Modelled from the spec: `opentelemetry.util.http.sanitize_method`, a
collaborator outside the embedded file — "a method-sanitizer collaborator
that maps any method outside a fixed known-method set to a constant unless
an override flag permits all methods"; the module documentation names the
constant `NONSTANDARD`.  `captureAll` is the
`OTEL_PYTHON_INSTRUMENTATION_HTTP_CAPTURE_ALL_METHODS` flag. -/
def sanitize_method (captureAll : Bool) : Option String → Option String
  | Option.none => Option.none
  | some m =>
      if captureAll then some m
      else if strUpper m ∈ knownMethods then some (strUpper m)
      else some "NONSTANDARD"

/-- Source `get_default_span_name(environ)`: sanitized, stripped method;
stripped `PATH_INFO`; `f"{method} {path}"` when both are truthy, else the
method. -/
def get_default_span_name (captureAll : Bool) (environ : Env) : String :=
  let method :=
    (sanitize_method captureAll
      (some (pyStrip (envGetD environ "REQUEST_METHOD" "")))).getD ""
  let path := pyStrip (envGetD environ "PATH_INFO" "")
  if method ≠ "" ∧ path ≠ "" then method ++ " " ++ path else method

/-! ### `WSGIGetter` -/

/-- The fixed carrier key marker `HTTP_`. -/
def carrierKeyPfx : String := "HTTP_"

/-- Source `WSGIGetter.get(carrier, key)`: look up
`"HTTP_" + key.upper().replace("-", "_")`; a present value is returned as
a one-element list, otherwise `None`. -/
def wsgiGetterGet (carrier : Env) (key : String) : Option (List String) :=
  let environ_key := carrierKeyPfx ++ replaceChar (strUpper key) '-' '_'
  match envGet carrier environ_key with
  | some value => some [value]
  | Option.none => Option.none

/-- Source `WSGIGetter.keys(carrier)`: every carrier key bearing the
`HTTP_` marker, stripped of it, lower-cased, `_`→`-`. -/
def wsgiGetterKeys (carrier : Env) : List String :=
  (carrier.filter (fun p => strStartsWith p.1 carrierKeyPfx)).map
    (fun p => replaceChar (strLower (strDrop p.1 carrierKeyPfx.length)) '_' '-')

/-! ### URL reconstruction helpers (external collaborators) -/

/-- Modelled from the spec: `wsgiref.util.request_uri` (standard library,
outside the repository) — the "fully reconstructed URL" from scheme, host
(`HTTP_HOST`, else `SERVER_NAME` plus `SERVER_PORT`), script name, path
and query string.  URL quoting is out of scope. -/
def request_uri (environ : Env) : String :=
  let scheme := envGetD environ "wsgi.url_scheme" ""
  let host :=
    match envGet environ "HTTP_HOST" with
    | some h => h
    | Option.none =>
        envGetD environ "SERVER_NAME" "" ++
          (match envGet environ "SERVER_PORT" with
           | some p => ":" ++ p
           | Option.none => "")
  let path := envGetD environ "SCRIPT_NAME" "" ++ envGetD environ "PATH_INFO" ""
  let query := envGetD environ "QUERY_STRING" ""
  scheme ++ "://" ++ host ++ path ++ (if query ≠ "" then "?" ++ query else "")

/-- First occurrence of `sep` in `cs`: the text before it and the text
after it. -/
def splitFirstSub : List Char → List Char → Option (List Char × List Char)
  | [], sep => if sep.isEmpty then some ([], []) else Option.none
  | c :: rest, sep =>
      if sep.isPrefixOf (c :: rest) then some ([], (c :: rest).drop sep.length)
      else match splitFirstSub rest sep with
        | some (a, b) => some (c :: a, b)
        | Option.none => Option.none

/-- Modelled from the spec: `opentelemetry.util.http.remove_url_credentials`
(repository code outside the embedded file) — "a fully reconstructed URL
with embedded credentials stripped": the userinfo before the last `@` of
the authority component is removed. -/
def remove_url_credentials (url : String) : String :=
  match splitFirstSub url.data "://".data with
  | some (scheme, rest) =>
      let auth := rest.takeWhile (fun c => c ≠ '/')
      let tail := rest.dropWhile (fun c => c ≠ '/')
      let host :=
        if auth.contains '@' then (auth.reverse.takeWhile (fun c => c ≠ '@')).reverse
        else auth
      String.mk (scheme ++ "://".data ++ host ++ tail)
  | Option.none => url

/-! ### `collect_request_attributes`

The source function is one linear pipeline; it is embedded as one step
function per source statement, composed in source order by
`collect_request_attributes`. -/

/-- An `Option String` as the stored Python value (`None` or the string). -/
def pyOptStr : Option String → PyVal
  | some s => .str s
  | Option.none => .none

/-- The initial `result` dictionary: method (sanitized), server name,
scheme. -/
def baseAttrs (captureAll : Bool) (environ : Env) : Attrs :=
  [("http.method", pyOptStr (sanitize_method captureAll
      (envGet environ "REQUEST_METHOD"))),
   ("http.server_name", pyOptStr (envGet environ "SERVER_NAME")),
   ("http.scheme", pyOptStr (envGet environ "wsgi.url_scheme"))]

/-- The `SERVER_PORT` step: skipped when absent or the empty string;
otherwise `int(host_port)` — which raises `ValueError` on an unparsable
string — and `result.update(...)`. -/
def withPort (environ : Env) (r : Attrs) : Except PyExc Attrs :=
  match envGet environ "SERVER_PORT" with
  | some host_port =>
      if host_port = "" then .ok r
      else match pyStrToInt host_port with
        | some v => .ok (dictSet r "net.host.port" (.int v))
        | Option.none =>
            .error (.valueError
              ("invalid literal for int() with base 10: " ++ pyRepr host_port))
  | Option.none => .ok r

/-- `setifnotnone(result, HTTP_HOST, environ.get("HTTP_HOST"))`. -/
def withHost (environ : Env) (r : Attrs) : Attrs :=
  setifnotnone r "http.host" ((envGet environ "HTTP_HOST").map PyVal.str)

/-- The `target` selection: `RAW_URI`, falling back to `REQUEST_URI` only
when `RAW_URI` is absent (`is None`). -/
def targetOf (environ : Env) : Option String :=
  match envGet environ "RAW_URI" with
  | some t => some t
  | Option.none => envGet environ "REQUEST_URI"

/-- The target/URL step: `http.target` when a target is present, else
`http.url` from the reconstructed, credential-stripped URL. -/
def withTarget (environ : Env) (r : Attrs) : Attrs :=
  match targetOf environ with
  | some t => dictSet r "http.target" (.str t)
  | Option.none =>
      dictSet r "http.url" (.str (remove_url_credentials (request_uri environ)))

/-- `if remote_addr:` — truthy `REMOTE_ADDR` sets `net.peer.ip`. -/
def withPeerIp (environ : Env) (r : Attrs) : Attrs :=
  match envGet environ "REMOTE_ADDR" with
  | some remote_addr =>
      if remote_addr ≠ "" then dictSet r "net.peer.ip" (.str remote_addr) else r
  | Option.none => r

/-- `if remote_host and remote_host != remote_addr:` — Python comparison of
a string with `None` is `True`, so a missing `REMOTE_ADDR` never blocks. -/
def withPeerName (environ : Env) (r : Attrs) : Attrs :=
  match envGet environ "REMOTE_HOST" with
  | some remote_host =>
      if remote_host ≠ "" ∧ envGet environ "REMOTE_ADDR" ≠ some remote_host then
        dictSet r "net.peer.name" (.str remote_host)
      else r
  | Option.none => r

/-- `if user_agent is not None and len(user_agent) > 0:`. -/
def withUserAgent (environ : Env) (r : Attrs) : Attrs :=
  match envGet environ "HTTP_USER_AGENT" with
  | some user_agent =>
      if 0 < user_agent.length then
        dictSet r "http.user_agent" (.str user_agent)
      else r
  | Option.none => r

/-- `setifnotnone(result, NET_PEER_PORT, environ.get("REMOTE_PORT"))` —
the port stays a string. -/
def withPeerPort (environ : Env) (r : Attrs) : Attrs :=
  setifnotnone r "net.peer.port" ((envGet environ "REMOTE_PORT").map PyVal.str)

/-- The protocol-flavor step: `SERVER_PROTOCOL` (default `""`), with the
`HTTP/` marker sliced off the original string when its upper-case form
starts with it; set only when truthy. -/
def withFlavor (environ : Env) (r : Attrs) : Attrs :=
  let flavor0 := envGetD environ "SERVER_PROTOCOL" ""
  let flavor :=
    if strStartsWith (strUpper flavor0) "HTTP/" then strDrop flavor0 5
    else flavor0
  if flavor ≠ "" then dictSet r "http.flavor" (.str flavor) else r

/-- Source `collect_request_attributes(environ)`: the statement pipeline in
source order.  The `int(host_port)` step can raise, so the function as a
whole is fallible. -/
def collect_request_attributes (captureAll : Bool) (environ : Env) :
    Except PyExc Attrs := do
  let r ← withPort environ (baseAttrs captureAll environ)
  pure (withFlavor environ (withPeerPort environ (withUserAgent environ
    (withPeerName environ (withPeerIp environ (withTarget environ
      (withHost environ r)))))))

/-! ### Metric attribute subsets -/

/-- Source `_duration_attrs`. -/
def durationAttrKeys : List String :=
  ["http.method", "http.host", "http.scheme", "http.status_code",
   "http.flavor", "http.server_name", "net.host.name", "net.host.port"]

/-- Source `_active_requests_count_attrs`. -/
def activeRequestsCountAttrKeys : List String :=
  ["http.method", "http.host", "http.scheme", "http.flavor",
   "http.server_name"]

/-- Project the keys of `ks` out of `req_attrs`, skipping entries whose
stored value is `None` (`if req_attrs.get(attr_key) is not None`). -/
def projectAttrs (ks : List String) (req_attrs : Attrs) : Attrs :=
  ks.foldl
    (fun acc k =>
      match lookupAttr req_attrs k with
      | some v => if v ≠ PyVal.none then dictSet acc k v else acc
      | Option.none => acc)
    []

/-- Source `_parse_active_request_count_attrs`. -/
def parse_active_request_count_attrs (req_attrs : Attrs) : Attrs :=
  projectAttrs activeRequestsCountAttrKeys req_attrs

/-- Source `_parse_duration_attrs`. -/
def parse_duration_attrs (req_attrs : Attrs) : Attrs :=
  projectAttrs durationAttrKeys req_attrs

/-! ### Response attributes and the `start_response` wrapper -/

/-- A span outcome status code. -/
inductive SpanStatus where
  | unset : SpanStatus
  | ok : SpanStatus
  | error : SpanStatus
  deriving DecidableEq, Repr

/-- Modelled from the spec:
`opentelemetry.instrumentation.utils.http_status_to_status_code`
(repository code outside the embedded file) — "a standard
HTTP-status-to-outcome mapping": below 100 is an error, 1xx–3xx unset
(redirects allowed), 4xx unset for server spans and error otherwise,
5xx and above error. -/
def http_status_to_status_code (status : Int) (allow_redirect : Bool)
    (server_span : Bool) : SpanStatus :=
  if status < 100 then .error
  else if status ≤ 299 then .unset
  else if status ≤ 399 ∧ allow_redirect then .unset
  else if status ≤ 499 ∧ server_span then .unset
  else .error

/-- An observable action of the middleware: span mutations, hook calls,
metric updates, generator cleanup, and the raising of an exception out of
the wrapper. -/
inductive Ev where
  | setStatus (code : SpanStatus) (msg : String) : Ev
  | setAttr (k : String) (v : PyVal) : Ev
  | setAttrsEv (a : Attrs) : Ev
  | reqHook : Ev
  | respHook (status : String) (headers : List (String × String)) : Ev
  | origCall (status : String) (headers : List (String × String))
      (args : List String) : Ev
  | counterAdd (delta : Int) (a : Attrs) : Ev
  | histRecord (v : Int) (a : Attrs) : Ev
  | wsgiCall : Ev
  | spanEnd : Ev
  | detach : Ev
  | closeIter : Ev
  | yieldChunk (c : String) : Ev
  | propagate (e : PyExc) : Ev
  deriving DecidableEq, Repr

/-- Source `add_response_attributes(span, start_response_status, ...)`: a
no-op for a non-recording span; otherwise the status line is split (the
unpacking raises on a line with no space); an unparsable code marks the
span's status as an error carrying the repr of the invalid text, a parsed
code is recorded as `http.status_code` and mapped through
`http_status_to_status_code(..., server_span=True)`. -/
def add_response_attributes (recording : Bool) (start_response_status : String) :
    Except PyExc (List Ev) :=
  if !recording then .ok []
  else match splitOnceSpace start_response_status with
    | Option.none =>
        .error (.valueError "not enough values to unpack (expected 2, got 1)")
    | some (status_code, _) =>
        match pyStrToInt status_code with
        | Option.none =>
            .ok [Ev.setStatus .error
                  ("Non-integer HTTP status: " ++ pyRepr status_code)]
        | some code =>
            .ok [Ev.setAttr "http.status_code" (.int code),
                 Ev.setStatus (http_status_to_status_code code true true) ""]

/-- One invocation of the wrapped `start_response` callback.  `recording`
and `isServer` describe the span; `customRespAttrs` stands for the result
of `collect_custom_response_headers_attributes(response_headers)` under
the external header-capture configuration; `durationAttrs` is the
caller-owned duration-attribute dictionary; `origResult` the opaque value
the original callback returns. -/
structure SRScenario where
  recording : Bool
  isServer : Bool
  status : String
  responseHeaders : List (String × String)
  args : List String
  hasHook : Bool
  customRespAttrs : Attrs
  durationAttrs : Attrs
  origResult : Nat
  deriving Repr

/-- Source `_start_response(status, response_headers, *args, **kwargs)`
from `OpenTelemetryMiddleware._create_start_response`: (1)
`add_response_attributes`, (2) `_parse_status_code`, written into the
caller-owned duration attributes when valid, (3) custom response-header
attributes when the span is a recording server span and they are
non-empty, (4) the user response hook when present, (5) the original
callback with all arguments unchanged, whose result is returned. -/
def start_response_wrapped (s : SRScenario) :
    Except PyExc (List Ev × Attrs × Nat) := do
  let evs1 ← add_response_attributes s.recording s.status
  let status_code ← parse_status_code s.status
  let duration_attrs :=
    match status_code with
    | some c => dictSet s.durationAttrs "http.status_code" (.int c)
    | Option.none => s.durationAttrs
  let evs2 :=
    if s.recording && s.isServer then
      if 0 < s.customRespAttrs.length then [Ev.setAttrsEv s.customRespAttrs]
      else []
    else []
  let evs3 :=
    if s.hasHook then [Ev.respHook s.status s.responseHeaders] else []
  pure (evs1 ++ evs2 ++ evs3 ++
          [Ev.origCall s.status s.responseHeaders s.args],
        duration_attrs, s.origResult)

/-! ### `OpenTelemetryMiddleware.__call__` -/

/-- What one middleware invocation encounters.  `recording`, `isServer`
and `token` describe the span/token pair `_start_internal_or_server_span`
returns (an external collaborator); `customReqAttrs` stands for
`collect_custom_request_headers_attributes(environ)` under the external
header-capture configuration; `wsgiResult` is the wrapped callable's
behavior (an iterable, or an exception raised before one is produced);
`appStatus` is the status code the wrapped callable's `start_response`
call wrote into the duration attributes, when any; `elapsedMs` the rounded
elapsed milliseconds measured in the `finally` block. -/
structure CallScenario where
  environ : Env
  captureAll : Bool
  recording : Bool
  isServer : Bool
  token : Option Nat
  customReqAttrs : Attrs
  hasReqHook : Bool
  wsgiResult : Except PyExc Unit
  appStatus : Option Int
  elapsedMs : Int
  deriving Repr

/-- Outcome of one middleware invocation: the wrapped generator is
returned, or an exception propagates to the server. -/
inductive CallOutcome where
  | ok : CallOutcome
  | raised (e : PyExc) : CallOutcome
  deriving DecidableEq, Repr

/-- The events before the `try` block: custom request-header attributes
for a recording server span when non-empty, then the request hook when
present. -/
def preludeEvs (s : CallScenario) : List Ev :=
  (if s.recording && s.isServer && decide (0 < s.customReqAttrs.length) then
     [Ev.setAttrsEv s.customReqAttrs]
   else []) ++
  (if s.hasReqHook then [Ev.reqHook] else [])

/-- The duration attributes at metric-recording time: the wrapped
callable's `start_response` call may have written a status code into the
caller-owned dictionary before the `finally` block runs. -/
def durationAttrsAfterApp (s : CallScenario) (dur0 : Attrs) : Attrs :=
  match s.appStatus with
  | some c => dictSet dur0 "http.status_code" (.int c)
  | Option.none => dur0

/-- Source `OpenTelemetryMiddleware.__call__(environ, start_response)`:
collect request attributes (which can raise before anything else
happens), derive the metric attribute subsets, start the span, attach
custom request headers, call the request hook, increment the
active-request counter, invoke the wrapped callable, and in a `finally`
block record the duration histogram (milliseconds floored at zero) and
decrement the counter; an exception from the wrapped callable marks a
recording span as an error, ends the span, detaches the token and
re-raises. -/
def middlewareCall (s : CallScenario) : List Ev × CallOutcome :=
  match collect_request_attributes s.captureAll s.environ with
  | .error e => ([], .raised e)
  | .ok req_attrs =>
      let active := parse_active_request_count_attrs req_attrs
      let dur := durationAttrsAfterApp s (parse_duration_attrs req_attrs)
      match s.wsgiResult with
      | .ok _ =>
          (preludeEvs s ++
             [Ev.counterAdd 1 active, Ev.wsgiCall,
              Ev.histRecord (max s.elapsedMs 0) dur,
              Ev.counterAdd (-1) active],
           .ok)
      | .error e =>
          (preludeEvs s ++
             [Ev.counterAdd 1 active, Ev.wsgiCall] ++
             (if s.recording then [Ev.setStatus .error (excStr e)] else []) ++
             [Ev.spanEnd] ++
             (if s.token.isSome then [Ev.detach] else []) ++
             [Ev.histRecord (max s.elapsedMs 0) dur,
              Ev.counterAdd (-1) active],
           .raised e)

/-! ### `_end_span_after_iterating` as a generator machine

The wrapped response body is the generator
`try: yield from iterable finally: close(); span.end(); detach(token)`.
The consuming server drives it with `next` and `close` calls; the machine
follows Python generator semantics: the body — and hence the `finally`
block — runs only once the generator has been started, so `close()` on a
never-started generator performs no cleanup; and closing the generator
while it is suspended inside the `yield from` first closes the
sub-iterator through the yield-from machinery (PEP 380: on
`GeneratorExit`, `_i.close()` is called before the exception is
re-raised), and only then runs the `finally` block, which calls
`iterable.close()` again.  The model takes `iter(iterable)` to be
`iterable` itself (an iterator, as a WSGI body generator is), so both
close calls target the same object and `GenCtx.closable` governs both. -/

/-- How the underlying iterable ends once its chunks are exhausted. -/
inductive IterTail where
  | stop : IterTail
  | raise (e : PyExc) : IterTail
  deriving DecidableEq, Repr

/-- The generator's fixed data: whether the underlying iterable has a
`close` attribute, the context token, and the iterable's tail behavior. -/
structure GenCtx where
  closable : Bool
  token : Option Nat
  tail : IterTail
  deriving DecidableEq, Repr

/-- Generator state: created but never started, suspended at a yield with
the given chunks remaining, or finished. -/
inductive GenSt where
  | created (items : List String) : GenSt
  | suspended (rest : List String) : GenSt
  | finished : GenSt
  deriving DecidableEq, Repr

/-- The operations the consuming server performs. -/
inductive GenOp where
  | next : GenOp
  | close : GenOp
  deriving DecidableEq, Repr

/-- What one operation returns to the server. -/
inductive GenResp where
  | yielded (c : String) : GenResp
  | stopIteration : GenResp
  | raised (e : PyExc) : GenResp
  | closedOk : GenResp
  deriving DecidableEq, Repr

/-- The close call delegated to the sub-iterator by the yield-from
machinery (PEP 380) when `GeneratorExit` arrives at the `yield from`:
performed only when the iterable has a `close` attribute. -/
def delegatedCloseEvs (ctx : GenCtx) : List Ev :=
  if ctx.closable then [Ev.closeIter] else []

/-- The `finally` block: close the underlying iterable when it is
closable, end the span, detach the token when one exists. -/
def cleanupEvs (ctx : GenCtx) : List Ev :=
  (if ctx.closable then [Ev.closeIter] else []) ++ [Ev.spanEnd] ++
    (match ctx.token with
     | some _ => [Ev.detach]
     | Option.none => [])

/-- A `next` on a started generator body: yield the next chunk, or hit the
iterable's tail, run the `finally` block and propagate `StopIteration` or
the iterable's exception. -/
def stepBody (ctx : GenCtx) : List String → List Ev × GenResp × GenSt
  | c :: rest => ([Ev.yieldChunk c], .yielded c, .suspended rest)
  | [] =>
      match ctx.tail with
      | .stop => (cleanupEvs ctx, .stopIteration, .finished)
      | .raise e => (cleanupEvs ctx ++ [Ev.propagate e], .raised e, .finished)

/-- One server operation against the generator.  `close` on a created
(never-started) generator just marks it finished — the body never ran, so
no `finally` block runs; `close` on a suspended generator raises
`GeneratorExit` at the yield inside the `yield from`, whose machinery
first closes the sub-iterator (PEP 380) and then the unwinding runs the
`finally` block (which closes the iterable a second time); operations on
a finished generator are no-ops. -/
def genStep (ctx : GenCtx) : GenSt → GenOp → List Ev × GenResp × GenSt
  | .created items, .next => stepBody ctx items
  | .created _, .close => ([], .closedOk, .finished)
  | .suspended rest, .next => stepBody ctx rest
  | .suspended _, .close =>
      (delegatedCloseEvs ctx ++ cleanupEvs ctx, .closedOk, .finished)
  | .finished, .next => ([], .stopIteration, .finished)
  | .finished, .close => ([], .closedOk, .finished)

/-- Run a sequence of server operations, collecting the emitted events. -/
def runGen (ctx : GenCtx) : GenSt → List GenOp → List Ev × GenSt
  | st, [] => ([], st)
  | st, op :: ops =>
      let r := genStep ctx st op
      let rest := runGen ctx r.2.2 ops
      (r.1 ++ rest.1, rest.2)

/-- The plan of a server that pulls `n` chunks (or until the generator
finishes) and then closes it, as PEP 3333 requires. -/
def consumePlan (n : Nat) : List GenOp :=
  List.replicate n GenOp.next ++ [GenOp.close]

/-- The event the iterable's tail contributes when the consumer reaches
it: an exception propagating out of the wrapper, after cleanup. -/
def tailPropagate (ctx : GenCtx) (items : List String) (n : Nat) : List Ev :=
  if items.length < n then
    match ctx.tail with
    | .raise e => [Ev.propagate e]
    | .stop => []
  else []

/-- The yield-from-delegated close a pull-then-close plan produces: it
happens only when the final `close` finds the generator still suspended
at a yield — that is, when the `n` pulls did not reach the iterable's
tail. -/
def planDelegatedClose (ctx : GenCtx) (items : List String) (n : Nat) :
    List Ev :=
  if items.length < n then [] else delegatedCloseEvs ctx

/-! ### Projections of event traces -/

/-- The counter updates of a trace, in order: (delta, attributes). -/
def counterEvents (evs : List Ev) : List (Int × Attrs) :=
  evs.filterMap fun e =>
    match e with
    | Ev.counterAdd d a => some (d, a)
    | _ => Option.none

/-- The histogram records of a trace, in order. -/
def histEvents (evs : List Ev) : List Int :=
  evs.filterMap fun e =>
    match e with
    | Ev.histRecord v _ => some v
    | _ => Option.none

/-- The span-status writes of a trace, in order. -/
def statusEvents (evs : List Ev) : List (SpanStatus × String) :=
  evs.filterMap fun e =>
    match e with
    | Ev.setStatus c m => some (c, m)
    | _ => Option.none

/-! ## Dictionary lemmas -/

theorem hasKey_dictSet (r : Attrs) (k k' : String) (v : PyVal) :
    hasKey (dictSet r k v) k' = (k == k' || hasKey r k') := by
  induction r with
  | nil => simp [dictSet, hasKey]
  | cons p rest ih =>
      obtain ⟨k₀, v₀⟩ := p
      by_cases h : k₀ = k
      · subst h
        simp [dictSet, hasKey]
      · simp only [dictSet, hasKey] at *
        rw [if_neg (by simpa [beq_iff_eq] using h)]
        simp [hasKey, ih, Bool.or_left_comm]

theorem lookupAttr_dictSet_self (r : Attrs) (k : String) (v : PyVal) :
    lookupAttr (dictSet r k v) k = some v := by
  induction r with
  | nil =>
      unfold dictSet lookupAttr
      rw [List.find?_cons_of_pos _ (by simp)]
      rfl
  | cons p rest ih =>
      obtain ⟨k₀, v₀⟩ := p
      by_cases h : k₀ = k
      · subst h
        unfold dictSet lookupAttr
        rw [if_pos (by simp)]
        rw [List.find?_cons_of_pos _ (by simp)]
        rfl
      · unfold dictSet lookupAttr
        rw [if_neg (by simpa [beq_iff_eq] using h)]
        rw [List.find?_cons_of_neg _ (by simpa [beq_iff_eq] using h)]
        exact ih

theorem lookupAttr_dictSet_ne (r : Attrs) (k k' : String) (v : PyVal)
    (h : k' ≠ k) : lookupAttr (dictSet r k v) k' = lookupAttr r k' := by
  induction r with
  | nil =>
      unfold dictSet lookupAttr
      rw [List.find?_cons_of_neg _ (by simpa [beq_iff_eq] using Ne.symm h)]
  | cons p rest ih =>
      obtain ⟨k₀, v₀⟩ := p
      by_cases h0 : k₀ = k
      · subst h0
        unfold dictSet lookupAttr
        rw [if_pos (by simp)]
        rw [List.find?_cons_of_neg _ (by simpa [beq_iff_eq] using Ne.symm h),
          List.find?_cons_of_neg _ (by simpa [beq_iff_eq] using Ne.symm h)]
      · unfold dictSet lookupAttr
        rw [if_neg (by simpa [beq_iff_eq] using h0)]
        by_cases h1 : k₀ = k'
        · subst h1
          rw [List.find?_cons_of_pos _ (by simp),
            List.find?_cons_of_pos _ (by simp)]
        · rw [List.find?_cons_of_neg _ (by simpa [beq_iff_eq] using h1),
            List.find?_cons_of_neg _ (by simpa [beq_iff_eq] using h1)]
          exact ih

theorem str_beq_false_of_ne {a b : String} (h : a ≠ b) : (a == b) = false :=
  beq_eq_false_iff_ne.mpr h

/-! ## Preservation of unrelated keys along the collection pipeline -/

theorem withHost_preserve (environ : Env) (r : Attrs) (k' : String)
    (h : k' ≠ "http.host") :
    hasKey (withHost environ r) k' = hasKey r k' ∧
    lookupAttr (withHost environ r) k' = lookupAttr r k' := by
  unfold withHost setifnotnone
  cases envGet environ "HTTP_HOST" <;>
    simp [hasKey_dictSet, lookupAttr_dictSet_ne _ _ _ _ h,
      str_beq_false_of_ne (Ne.symm h)]

theorem withTarget_preserve (environ : Env) (r : Attrs) (k' : String)
    (h1 : k' ≠ "http.target") (h2 : k' ≠ "http.url") :
    hasKey (withTarget environ r) k' = hasKey r k' ∧
    lookupAttr (withTarget environ r) k' = lookupAttr r k' := by
  unfold withTarget
  cases targetOf environ <;>
    simp [hasKey_dictSet, lookupAttr_dictSet_ne _ _ _ _ h1,
      lookupAttr_dictSet_ne _ _ _ _ h2,
      str_beq_false_of_ne (Ne.symm h1), str_beq_false_of_ne (Ne.symm h2)]

theorem hasKey_condSet (c : Prop) [Decidable c] (r : Attrs) (k k' : String)
    (v : PyVal) (h : k' ≠ k) :
    hasKey (if c then dictSet r k v else r) k' = hasKey r k' := by
  split
  · rw [hasKey_dictSet]
    simp [str_beq_false_of_ne (Ne.symm h)]
  · rfl

theorem lookupAttr_condSet (c : Prop) [Decidable c] (r : Attrs)
    (k k' : String) (v : PyVal) (h : k' ≠ k) :
    lookupAttr (if c then dictSet r k v else r) k' = lookupAttr r k' := by
  split
  · exact lookupAttr_dictSet_ne _ _ _ _ h
  · rfl

theorem withPeerIp_preserve (environ : Env) (r : Attrs) (k' : String)
    (h : k' ≠ "net.peer.ip") :
    hasKey (withPeerIp environ r) k' = hasKey r k' ∧
    lookupAttr (withPeerIp environ r) k' = lookupAttr r k' := by
  unfold withPeerIp
  cases envGet environ "REMOTE_ADDR" with
  | none => exact ⟨rfl, rfl⟩
  | some a =>
      exact ⟨hasKey_condSet _ _ _ _ _ h, lookupAttr_condSet _ _ _ _ _ h⟩

theorem withPeerName_preserve (environ : Env) (r : Attrs) (k' : String)
    (h : k' ≠ "net.peer.name") :
    hasKey (withPeerName environ r) k' = hasKey r k' ∧
    lookupAttr (withPeerName environ r) k' = lookupAttr r k' := by
  unfold withPeerName
  cases envGet environ "REMOTE_HOST" with
  | none => exact ⟨rfl, rfl⟩
  | some a =>
      exact ⟨hasKey_condSet _ _ _ _ _ h, lookupAttr_condSet _ _ _ _ _ h⟩

theorem withUserAgent_preserve (environ : Env) (r : Attrs) (k' : String)
    (h : k' ≠ "http.user_agent") :
    hasKey (withUserAgent environ r) k' = hasKey r k' ∧
    lookupAttr (withUserAgent environ r) k' = lookupAttr r k' := by
  unfold withUserAgent
  cases envGet environ "HTTP_USER_AGENT" with
  | none => exact ⟨rfl, rfl⟩
  | some a =>
      exact ⟨hasKey_condSet _ _ _ _ _ h, lookupAttr_condSet _ _ _ _ _ h⟩

theorem withPeerPort_preserve (environ : Env) (r : Attrs) (k' : String)
    (h : k' ≠ "net.peer.port") :
    hasKey (withPeerPort environ r) k' = hasKey r k' ∧
    lookupAttr (withPeerPort environ r) k' = lookupAttr r k' := by
  unfold withPeerPort setifnotnone
  cases envGet environ "REMOTE_PORT" <;>
    simp [hasKey_dictSet, lookupAttr_dictSet_ne _ _ _ _ h,
      str_beq_false_of_ne (Ne.symm h)]

theorem withFlavor_preserve (environ : Env) (r : Attrs) (k' : String)
    (h : k' ≠ "http.flavor") :
    hasKey (withFlavor environ r) k' = hasKey r k' ∧
    lookupAttr (withFlavor environ r) k' = lookupAttr r k' := by
  unfold withFlavor
  exact ⟨hasKey_condSet _ _ _ _ _ h, lookupAttr_condSet _ _ _ _ _ h⟩

/-- The tail of the pipeline (every step after the target/URL choice)
touches neither `http.target` nor `http.url` nor `net.host.port`. -/
theorem pipelineTail_preserve (environ : Env) (x : Attrs) (k' : String)
    (h1 : k' ≠ "net.peer.ip") (h2 : k' ≠ "net.peer.name")
    (h3 : k' ≠ "http.user_agent") (h4 : k' ≠ "net.peer.port")
    (h5 : k' ≠ "http.flavor") :
    hasKey (withFlavor environ (withPeerPort environ (withUserAgent environ
        (withPeerName environ (withPeerIp environ x))))) k' = hasKey x k' ∧
    lookupAttr (withFlavor environ (withPeerPort environ (withUserAgent environ
        (withPeerName environ (withPeerIp environ x))))) k' =
      lookupAttr x k' := by
  rw [(withFlavor_preserve environ _ k' h5).1, (withFlavor_preserve environ _ k' h5).2,
    (withPeerPort_preserve environ _ k' h4).1, (withPeerPort_preserve environ _ k' h4).2,
    (withUserAgent_preserve environ _ k' h3).1, (withUserAgent_preserve environ _ k' h3).2,
    (withPeerName_preserve environ _ k' h2).1, (withPeerName_preserve environ _ k' h2).2,
    (withPeerIp_preserve environ _ k' h1).1, (withPeerIp_preserve environ _ k' h1).2]
  exact ⟨rfl, rfl⟩

/-- Unfolding of `collect_request_attributes` as the port step followed by
the pure pipeline. -/
theorem collect_ok_iff (ca : Bool) (environ : Env) (attrs : Attrs) :
    collect_request_attributes ca environ = .ok attrs ↔
    ∃ r, withPort environ (baseAttrs ca environ) = .ok r ∧
      attrs = withFlavor environ (withPeerPort environ (withUserAgent environ
        (withPeerName environ (withPeerIp environ (withTarget environ
          (withHost environ r)))))) := by
  unfold collect_request_attributes
  cases h : withPort environ (baseAttrs ca environ) <;>
    simp [h, Except.bind, bind, pure, Except.pure, eq_comm]

/-- The possible results of the port step. -/
theorem withPort_ok_cases (environ : Env) (r0 r : Attrs)
    (h : withPort environ r0 = .ok r) :
    r = r0 ∨ ∃ hp v, envGet environ "SERVER_PORT" = some hp ∧ hp ≠ "" ∧
      pyStrToInt hp = some v ∧ r = dictSet r0 "net.host.port" (.int v) := by
  unfold withPort at h
  split at h
  · rename_i hp heq
    split at h
    · exact Or.inl (Except.ok.inj h).symm
    · rename_i hne
      split at h
      · rename_i v hv
        exact Or.inr ⟨hp, v, heq, hne, hv, (Except.ok.inj h).symm⟩
      · cases h
  · exact Or.inl (Except.ok.inj h).symm

/-- A successful port step never introduces the target or URL keys. -/
theorem withPort_base_no_target (ca : Bool) (environ : Env) (r : Attrs)
    (h : withPort environ (baseAttrs ca environ) = .ok r) :
    hasKey r "http.target" = false ∧ hasKey r "http.url" = false := by
  rcases withPort_ok_cases _ _ _ h with rfl | ⟨hp, v, _, _, _, rfl⟩
  · exact ⟨rfl, rfl⟩
  · exact ⟨rfl, rfl⟩

/-! ## C2: `parseStatusCode` totality -/

/-- C2, counterexample: the claim says `parseStatusCode` "never raises for
any input string (including strings that contain no space)", but on the
status string `"200"` — which contains no space — the tuple unpacking
`status_code, _ = resp_status.split(" ", 1)` raises a `ValueError` before
the `try` block is entered. -/
theorem C2_counterexample :
    parse_status_code "200" =
      Except.error
        (PyExc.valueError "not enough values to unpack (expected 2, got 1)") :=
  rfl

/-- C2, amended: for every status-line string that contains a space,
`parseStatusCode` splits on the first space, parses the leading token as
an integer, and returns the absent value on parse failure without
raising; in particular `parseStatusCode("200 OK") = 200` and
`parseStatusCode("bad status")` is absent.  For a string with no space
the tuple unpacking raises `ValueError`. -/
theorem C2_parse_status_code_amended :
    (∀ s pre post, splitOnceSpace s = some (pre, post) →
        parse_status_code s = Except.ok (pyStrToInt pre)) ∧
    parse_status_code "200 OK" = Except.ok (some 200) ∧
    parse_status_code "bad status" = Except.ok Option.none := by
  refine ⟨?_, rfl, rfl⟩
  intro s pre post h
  simp [parse_status_code, h]

/-! ## C9: the default span name -/

theorem sanitize_method_some_ne_empty (x : String) :
    (sanitize_method false (some x)).getD "" ≠ "" := by
  unfold sanitize_method
  by_cases h : strUpper x ∈ knownMethods
  · simp only [h, if_true, Bool.false_eq_true, if_false, Option.getD_some]
    intro hx
    rw [hx] at h
    revert h
    decide
  · simp [h]

/-- C9: with the default configuration (the capture-all-methods flag
unset), the default span name is `"{method} {path}"` when the stripped
path is non-empty and just the sanitized method otherwise; in particular
`GET /items/1` and, with an empty path, `GET`. -/
theorem C9_default_span_name :
    (∀ environ : Env,
        get_default_span_name false environ =
          (if pyStrip (envGetD environ "PATH_INFO" "") = "" then
             (sanitize_method false
               (some (pyStrip (envGetD environ "REQUEST_METHOD" "")))).getD ""
           else
             (sanitize_method false
               (some (pyStrip (envGetD environ "REQUEST_METHOD" "")))).getD ""
               ++ " " ++ pyStrip (envGetD environ "PATH_INFO" ""))) ∧
    get_default_span_name false
      [("REQUEST_METHOD", "GET"), ("PATH_INFO", "/items/1")] = "GET /items/1" ∧
    get_default_span_name false
      [("REQUEST_METHOD", "GET"), ("PATH_INFO", "")] = "GET" := by
  refine ⟨?_, rfl, rfl⟩
  intro environ
  unfold get_default_span_name
  by_cases hp : pyStrip (envGetD environ "PATH_INFO" "") = ""
  · rw [if_pos hp, if_neg]
    simp [hp]
  · rw [if_neg hp, if_pos]
    exact ⟨sanitize_method_some_ne_empty _, hp⟩

/-! ## C8: the carrier getter round-trip -/

/-- C8: `get(carrier, "X-Custom")` is the one-element list `[v]` exactly
when the carrier maps `HTTP_X_CUSTOM` to `v`; the result is never an
empty list; and in the present case `keys(carrier)` contains
`"x-custom"`. -/
theorem C8_carrier_roundtrip (carrier : Env) (v : String) :
    (wsgiGetterGet carrier "X-Custom" = some [v] ↔
      envGet carrier "HTTP_X_CUSTOM" = some v) ∧
    (∀ key, wsgiGetterGet carrier key ≠ some []) ∧
    (envGet carrier "HTTP_X_CUSTOM" = some v →
      "x-custom" ∈ wsgiGetterKeys carrier) := by
  have hk : carrierKeyPfx ++ replaceChar (strUpper "X-Custom") '-' '_' =
      "HTTP_X_CUSTOM" := rfl
  refine ⟨?_, ?_, ?_⟩
  · unfold wsgiGetterGet
    rw [hk]
    cases h : envGet carrier "HTTP_X_CUSTOM" <;> simp [h]
  · intro key
    unfold wsgiGetterGet
    cases h : envGet carrier (carrierKeyPfx ++ replaceChar (strUpper key) '-' '_') <;>
      simp [h]
  · intro h
    obtain ⟨q, hq, hq2⟩ := Option.map_eq_some'.mp h
    have hmem := List.mem_of_find?_eq_some hq
    have hpred :=
      @List.find?_some _ (fun p => p.1 == "HTTP_X_CUSTOM") q carrier hq
    have hq1 : q.1 = "HTTP_X_CUSTOM" := eq_of_beq hpred
    unfold wsgiGetterKeys
    refine List.mem_map.mpr ⟨q, List.mem_filter.mpr ⟨hmem, ?_⟩, ?_⟩
    · rw [hq1]; rfl
    · rw [hq1]; rfl

/-! ## C10: exactly one of `http.target` and `http.url` -/

/-- C10: whenever `collect_request_attributes` returns normally, the
result carries exactly one of the keys `http.target` and `http.url` —
never both and never neither. -/
theorem C10_target_url_exclusive (ca : Bool) (environ : Env) (attrs : Attrs)
    (h : collect_request_attributes ca environ = .ok attrs) :
    hasKey attrs "http.target" = !(hasKey attrs "http.url") := by
  obtain ⟨r, hport, rfl⟩ := (collect_ok_iff ca environ _).mp h
  obtain ⟨hbt, hbu⟩ := withPort_base_no_target ca environ r hport
  rw [(pipelineTail_preserve environ _ "http.target" (by decide) (by decide)
        (by decide) (by decide) (by decide)).1,
      (pipelineTail_preserve environ _ "http.url" (by decide) (by decide)
        (by decide) (by decide) (by decide)).1]
  unfold withTarget
  cases htg : targetOf environ with
  | some t =>
      rw [hasKey_dictSet, hasKey_dictSet,
        (withHost_preserve environ r "http.target" (by decide)).1,
        (withHost_preserve environ r "http.url" (by decide)).1, hbt, hbu]
      rfl
  | none =>
      rw [hasKey_dictSet, hasKey_dictSet,
        (withHost_preserve environ r "http.target" (by decide)).1,
        (withHost_preserve environ r "http.url" (by decide)).1, hbt, hbu]
      rfl

/-- C10, witness: a request with only `REQUEST_URI` yields attributes
with `http.target` present and `http.url` absent. -/
theorem C10_witness :
    hasKey
        [("http.method", PyVal.none), ("http.server_name", PyVal.none),
         ("http.scheme", PyVal.none), ("http.target", PyVal.str "/req")]
        "http.target" =
      !(hasKey
          [("http.method", PyVal.none), ("http.server_name", PyVal.none),
           ("http.scheme", PyVal.none), ("http.target", PyVal.str "/req")]
          "http.url") :=
  C10_target_url_exclusive false [("REQUEST_URI", "/req")] _ rfl

/-! ## C7: target preference order -/

/-- C7: the target attribute is taken from `RAW_URI` when that key is
present, else from `REQUEST_URI`; only when neither is present is
`http.url` set instead, to the reconstructed request URL with embedded
credentials stripped. -/
theorem C7_target_preference (ca : Bool) (environ : Env) (attrs : Attrs)
    (h : collect_request_attributes ca environ = .ok attrs) :
    (∀ t, envGet environ "RAW_URI" = some t →
        lookupAttr attrs "http.target" = some (PyVal.str t) ∧
        hasKey attrs "http.url" = false) ∧
    (envGet environ "RAW_URI" = Option.none →
      ∀ t, envGet environ "REQUEST_URI" = some t →
        lookupAttr attrs "http.target" = some (PyVal.str t) ∧
        hasKey attrs "http.url" = false) ∧
    (envGet environ "RAW_URI" = Option.none →
      envGet environ "REQUEST_URI" = Option.none →
        hasKey attrs "http.target" = false ∧
        lookupAttr attrs "http.url" =
          some (PyVal.str (remove_url_credentials (request_uri environ)))) := by
  obtain ⟨r, hport, rfl⟩ := (collect_ok_iff ca environ _).mp h
  obtain ⟨hbt, hbu⟩ := withPort_base_no_target ca environ r hport
  refine ⟨?_, ?_, ?_⟩
  · intro t hraw
    have htg : targetOf environ = some t := by unfold targetOf; rw [hraw]
    constructor
    · rw [(pipelineTail_preserve environ _ "http.target" (by decide) (by decide)
          (by decide) (by decide) (by decide)).2]
      simp only [withTarget, htg]
      exact lookupAttr_dictSet_self _ _ _
    · rw [(pipelineTail_preserve environ _ "http.url" (by decide) (by decide)
          (by decide) (by decide) (by decide)).1]
      simp only [withTarget, htg]
      rw [hasKey_dictSet,
        (withHost_preserve environ r "http.url" (by decide)).1, hbu]
      rfl
  · intro hraw t hreq
    have htg : targetOf environ = some t := by
      unfold targetOf; rw [hraw, hreq]
    constructor
    · rw [(pipelineTail_preserve environ _ "http.target" (by decide) (by decide)
          (by decide) (by decide) (by decide)).2]
      simp only [withTarget, htg]
      exact lookupAttr_dictSet_self _ _ _
    · rw [(pipelineTail_preserve environ _ "http.url" (by decide) (by decide)
          (by decide) (by decide) (by decide)).1]
      simp only [withTarget, htg]
      rw [hasKey_dictSet,
        (withHost_preserve environ r "http.url" (by decide)).1, hbu]
      rfl
  · intro hraw hreq
    have htg : targetOf environ = Option.none := by
      unfold targetOf; rw [hraw, hreq]
    constructor
    · rw [(pipelineTail_preserve environ _ "http.target" (by decide) (by decide)
          (by decide) (by decide) (by decide)).1]
      simp only [withTarget, htg]
      rw [hasKey_dictSet,
        (withHost_preserve environ r "http.target" (by decide)).1, hbt]
      rfl
    · rw [(pipelineTail_preserve environ _ "http.url" (by decide) (by decide)
          (by decide) (by decide) (by decide)).2]
      simp only [withTarget, htg]
      exact lookupAttr_dictSet_self _ _ _

/-- C7, witness: with `RAW_URI = "/raw"` present, `http.target` is
`"/raw"` and `http.url` is absent. -/
theorem C7_witness :
    lookupAttr
        [("http.method", PyVal.none), ("http.server_name", PyVal.none),
         ("http.scheme", PyVal.none), ("http.target", PyVal.str "/raw")]
        "http.target" = some (PyVal.str "/raw") ∧
    hasKey
        [("http.method", PyVal.none), ("http.server_name", PyVal.none),
         ("http.scheme", PyVal.none), ("http.target", PyVal.str "/raw")]
        "http.url" = false :=
  (C7_target_preference false [("RAW_URI", "/raw")] _ rfl).1 "/raw" rfl

/-! ## C3: the `SERVER_PORT` field -/

/-- C3, counterexample: the claim says an unparsable non-empty port value
"is silently dropped — the function returns normally ... and never
raises", but `int(host_port)` on `SERVER_PORT = "abc"` raises
`ValueError`, which nothing catches. -/
theorem C3_counterexample :
    collect_request_attributes false [("SERVER_PORT", "abc")] =
      Except.error
        (PyExc.valueError "invalid literal for int() with base 10: 'abc'") :=
  rfl

/-- C3, amended: the numeric host-port attribute is set only when
`SERVER_PORT` is present and parses as an integer (then with the parsed
value); an absent or empty port is silently skipped; but a non-empty
unparsable port makes `collect_request_attributes` raise `ValueError`
rather than return normally. -/
theorem C3_port_amended :
    (∀ (ca : Bool) (environ : Env) (hp : String),
        envGet environ "SERVER_PORT" = some hp → hp ≠ "" →
        pyStrToInt hp = Option.none →
        collect_request_attributes ca environ =
          Except.error (PyExc.valueError
            ("invalid literal for int() with base 10: " ++ pyRepr hp))) ∧
    (∀ (ca : Bool) (environ : Env) (attrs : Attrs),
        collect_request_attributes ca environ = .ok attrs →
        (hasKey attrs "net.host.port" = true ↔
          ∃ hp v, envGet environ "SERVER_PORT" = some hp ∧
            pyStrToInt hp = some v) ∧
        (∀ hp v, envGet environ "SERVER_PORT" = some hp →
            pyStrToInt hp = some v →
            lookupAttr attrs "net.host.port" = some (PyVal.int v))) := by
  constructor
  · intro ca environ hp h1 h2 h3
    have hport : withPort environ (baseAttrs ca environ) =
        Except.error (PyExc.valueError
          ("invalid literal for int() with base 10: " ++ pyRepr hp)) := by
      unfold withPort
      simp only [h1]
      rw [if_neg h2]
      simp only [h3]
    unfold collect_request_attributes
    rw [hport]
    rfl
  · intro ca environ attrs h
    obtain ⟨r, hport, rfl⟩ := (collect_ok_iff ca environ _).mp h
    have hkey : ∀ a : Attrs,
        hasKey (withFlavor environ (withPeerPort environ (withUserAgent environ
          (withPeerName environ (withPeerIp environ (withTarget environ
            (withHost environ a))))))) "net.host.port" =
          hasKey a "net.host.port" := by
      intro a
      rw [(pipelineTail_preserve environ _ "net.host.port" (by decide)
            (by decide) (by decide) (by decide) (by decide)).1,
        (withTarget_preserve environ _ "net.host.port" (by decide)
            (by decide)).1,
        (withHost_preserve environ _ "net.host.port" (by decide)).1]
    have hlook : ∀ a : Attrs,
        lookupAttr (withFlavor environ (withPeerPort environ (withUserAgent environ
          (withPeerName environ (withPeerIp environ (withTarget environ
            (withHost environ a))))))) "net.host.port" =
          lookupAttr a "net.host.port" := by
      intro a
      rw [(pipelineTail_preserve environ _ "net.host.port" (by decide)
            (by decide) (by decide) (by decide) (by decide)).2,
        (withTarget_preserve environ _ "net.host.port" (by decide)
            (by decide)).2,
        (withHost_preserve environ _ "net.host.port" (by decide)).2]
    rcases he : envGet environ "SERVER_PORT" with _ | hp
    · have hr : r = baseAttrs ca environ := by
        unfold withPort at hport
        simp only [he] at hport
        exact (Except.ok.inj hport).symm
      subst hr
      constructor
      · rw [hkey]
        constructor
        · intro hfalse
          have hb : hasKey (baseAttrs ca environ) "net.host.port" = false := rfl
          rw [hb] at hfalse
          exact absurd hfalse (by decide)
        · rintro ⟨hp, v, hhp, -⟩
          exact Option.noConfusion hhp
      · intro hp v hhp
        exact absurd hhp (by intro hx; exact Option.noConfusion hx)
    · by_cases hemp : hp = ""
      · have hr : r = baseAttrs ca environ := by
          unfold withPort at hport
          simp only [he] at hport
          rw [if_pos hemp] at hport
          exact (Except.ok.inj hport).symm
        subst hr
        constructor
        · rw [hkey]
          constructor
          · intro hfalse
            have hb : hasKey (baseAttrs ca environ) "net.host.port" = false :=
              rfl
            rw [hb] at hfalse
            exact absurd hfalse (by decide)
          · rintro ⟨hp0, v, hhp, hv⟩
            cases hhp
            rw [hemp] at hv
            rw [show pyStrToInt "" = Option.none from rfl] at hv
            cases hv
        · intro hp0 v hhp hv
          cases hhp
          rw [hemp] at hv
          rw [show pyStrToInt "" = Option.none from rfl] at hv
          cases hv
      · cases hv : pyStrToInt hp with
        | none =>
            exfalso
            unfold withPort at hport
            simp only [he] at hport
            rw [if_neg hemp] at hport
            simp only [hv] at hport
            cases hport
        | some v =>
            have hr : r = dictSet (baseAttrs ca environ) "net.host.port"
                (.int v) := by
              unfold withPort at hport
              simp only [he] at hport
              rw [if_neg hemp] at hport
              simp only [hv] at hport
              exact (Except.ok.inj hport).symm
            subst hr
            constructor
            · rw [hkey]
              constructor
              · intro _
                exact ⟨hp, v, rfl, hv⟩
              · intro _
                rfl
            · intro hp0 v0 hhp hv0
              cases hhp
              rw [hv] at hv0
              cases hv0
              rw [hlook]
              exact lookupAttr_dictSet_self _ _ _

/-! ## Facts about the events before the `try` block -/

theorem counterEvents_append (l1 l2 : List Ev) :
    counterEvents (l1 ++ l2) = counterEvents l1 ++ counterEvents l2 :=
  List.filterMap_append _ _ _

theorem histEvents_append (l1 l2 : List Ev) :
    histEvents (l1 ++ l2) = histEvents l1 ++ histEvents l2 :=
  List.filterMap_append _ _ _

theorem statusEvents_append (l1 l2 : List Ev) :
    statusEvents (l1 ++ l2) = statusEvents l1 ++ statusEvents l2 :=
  List.filterMap_append _ _ _

theorem counterEvents_prelude (s : CallScenario) :
    counterEvents (preludeEvs s) = [] := by
  unfold preludeEvs counterEvents
  split <;> split <;> rfl

theorem histEvents_prelude (s : CallScenario) :
    histEvents (preludeEvs s) = [] := by
  unfold preludeEvs histEvents
  split <;> split <;> rfl

theorem statusEvents_prelude (s : CallScenario) :
    statusEvents (preludeEvs s) = [] := by
  unfold preludeEvs statusEvents
  split <;> split <;> rfl

theorem wsgiCall_not_mem_prelude (s : CallScenario) :
    Ev.wsgiCall ∉ preludeEvs s := by
  unfold preludeEvs
  split <;> split <;> simp

theorem spanEnd_not_mem_prelude (s : CallScenario) :
    Ev.spanEnd ∉ preludeEvs s := by
  unfold preludeEvs
  split <;> split <;> simp

theorem count_prelude_spanEnd (s : CallScenario) :
    (preludeEvs s).count Ev.spanEnd = 0 := by
  unfold preludeEvs
  split <;> split <;> rfl

theorem count_prelude_detach (s : CallScenario) :
    (preludeEvs s).count Ev.detach = 0 := by
  unfold preludeEvs
  split <;> split <;> rfl

/-! ## C4: metric lifecycle -/

/-- C4, counterexample: the claim ranges over "every invocation of the
middleware", but an invocation whose attribute collection raises (here
`SERVER_PORT = "abc"`, see C3) raises before the counter increment and
the `try`/`finally`, so the histogram receives no record at all and the
counter is never touched. -/
theorem C4_counterexample :
    histEvents (middlewareCall
      { environ := [("SERVER_PORT", "abc")], captureAll := false,
        recording := true, isServer := true, token := some 0,
        customReqAttrs := [], hasReqHook := false,
        wsgiResult := .ok (), appStatus := Option.none,
        elapsedMs := 3 }).1 = [] ∧
    counterEvents (middlewareCall
      { environ := [("SERVER_PORT", "abc")], captureAll := false,
        recording := true, isServer := true, token := some 0,
        customReqAttrs := [], hasReqHook := false,
        wsgiResult := .ok (), appStatus := Option.none,
        elapsedMs := 3 }).1 = [] ∧
    (middlewareCall
      { environ := [("SERVER_PORT", "abc")], captureAll := false,
        recording := true, isServer := true, token := some 0,
        customReqAttrs := [], hasReqHook := false,
        wsgiResult := .ok (), appStatus := Option.none,
        elapsedMs := 3 }).2 =
      CallOutcome.raised
        (PyExc.valueError "invalid literal for int() with base 10: 'abc'") :=
  ⟨rfl, rfl, rfl⟩

/-- C4, amended: for every invocation on which request-attribute
collection returns normally — whether the wrapped callable succeeds or
raises — the duration histogram receives exactly one record, whose value
is the elapsed milliseconds floored at zero (hence nonnegative), and the
counter trace is exactly `+1` then `-1`, both carrying the
active-request attribute mapping captured at call time, with the
increment immediately before the wrapped callable's invocation and the
decrement after it, last of all events. -/
theorem C4_metrics_amended (s : CallScenario) (ra : Attrs)
    (h : collect_request_attributes s.captureAll s.environ = .ok ra) :
    counterEvents (middlewareCall s).1 =
      [(1, parse_active_request_count_attrs ra),
       (-1, parse_active_request_count_attrs ra)] ∧
    histEvents (middlewareCall s).1 = [max s.elapsedMs 0] ∧
    0 ≤ max s.elapsedMs 0 ∧
    ∃ pre mid, (middlewareCall s).1 =
      pre ++ Ev.counterAdd 1 (parse_active_request_count_attrs ra) ::
        Ev.wsgiCall :: (mid ++
          [Ev.counterAdd (-1) (parse_active_request_count_attrs ra)]) ∧
      Ev.wsgiCall ∉ pre := by
  unfold middlewareCall
  simp only [h]
  cases hw : s.wsgiResult with
  | ok u =>
      refine ⟨?_, ?_, le_max_right _ _,
        preludeEvs s,
        [Ev.histRecord (max s.elapsedMs 0)
          (durationAttrsAfterApp s (parse_duration_attrs ra))],
        ?_, wsgiCall_not_mem_prelude s⟩
      · rw [counterEvents_append, counterEvents_prelude]
        rfl
      · rw [histEvents_append, histEvents_prelude]
        rfl
      · rfl
  | error e =>
      refine ⟨?_, ?_, le_max_right _ _,
        preludeEvs s,
        (if s.recording then [Ev.setStatus .error (excStr e)] else []) ++
          [Ev.spanEnd] ++
          (if s.token.isSome then [Ev.detach] else []) ++
          [Ev.histRecord (max s.elapsedMs 0)
            (durationAttrsAfterApp s (parse_duration_attrs ra))],
        ?_, wsgiCall_not_mem_prelude s⟩
      · simp only [counterEvents_append, counterEvents_prelude,
          List.nil_append]
        cases hr : s.recording <;> cases ht : s.token <;> rfl
      · simp only [histEvents_append, histEvents_prelude, List.nil_append]
        cases hr : s.recording <;> cases ht : s.token <;> rfl
      · cases hr : s.recording <;> cases ht : s.token <;> simp

/-- C4, witness: a concrete successful invocation records one duration
sample and a balanced counter pair. -/
theorem C4_witness :
    counterEvents (middlewareCall
      { environ := [("REQUEST_METHOD", "GET")], captureAll := false,
        recording := true, isServer := true, token := some 0,
        customReqAttrs := [], hasReqHook := false,
        wsgiResult := .ok (), appStatus := Option.none,
        elapsedMs := 7 }).1 =
      [(1, [("http.method", PyVal.str "GET")]),
       (-1, [("http.method", PyVal.str "GET")])] ∧
    histEvents (middlewareCall
      { environ := [("REQUEST_METHOD", "GET")], captureAll := false,
        recording := true, isServer := true, token := some 0,
        customReqAttrs := [], hasReqHook := false,
        wsgiResult := .ok (), appStatus := Option.none,
        elapsedMs := 7 }).1 = [max 7 0] ∧
    0 ≤ max (7 : Int) 0 ∧
    ∃ pre mid, (middlewareCall
      { environ := [("REQUEST_METHOD", "GET")], captureAll := false,
        recording := true, isServer := true, token := some 0,
        customReqAttrs := [], hasReqHook := false,
        wsgiResult := .ok (), appStatus := Option.none,
        elapsedMs := 7 }).1 =
      pre ++ Ev.counterAdd 1 [("http.method", PyVal.str "GET")] ::
        Ev.wsgiCall :: (mid ++
          [Ev.counterAdd (-1) [("http.method", PyVal.str "GET")]]) ∧
      Ev.wsgiCall ∉ pre :=
  C4_metrics_amended
    { environ := [("REQUEST_METHOD", "GET")], captureAll := false,
      recording := true, isServer := true, token := some 0,
      customReqAttrs := [], hasReqHook := false,
      wsgiResult := .ok (), appStatus := Option.none,
      elapsedMs := 7 } _ rfl

/-! ## C5: exception from the wrapped callable -/

/-- A concrete invocation whose span is not recording and whose wrapped
callable raises. -/
def c5NonRecording : CallScenario :=
  { environ := [("REQUEST_METHOD", "GET")], captureAll := false,
    recording := false, isServer := true, token := some 0,
    customReqAttrs := [], hasReqHook := false,
    wsgiResult := .error (.valueError "boom"), appStatus := Option.none,
    elapsedMs := 2 }

/-- C5, counterexample: the claim says every exception from the wrapped
callable "marks the span as an error whose message is the exception's
textual representation", but the error status is guarded by
`span.is_recording()` (line 590), so for a non-recording span no status
is set at all — the exception is still re-raised and the span still
ended. -/
theorem C5_counterexample :
    (middlewareCall c5NonRecording).2 =
      CallOutcome.raised (PyExc.valueError "boom") ∧
    statusEvents (middlewareCall c5NonRecording).1 = [] :=
  ⟨rfl, rfl⟩

/-- C5, amended: for every exception raised by the wrapped callable
before a response sequence is returned (on an invocation whose attribute
collection returned normally), the middleware — when the span is
recording — sets exactly one error status whose message is the
exception's textual representation (and none otherwise), ends the span
exactly once, detaches the context exactly once when a token exists, and
re-raises the same exception unmodified, with the status write, span end
and detach in that order. -/
theorem C5_exception_path_amended (s : CallScenario) (ra : Attrs) (e : PyExc)
    (h : collect_request_attributes s.captureAll s.environ = .ok ra)
    (he : s.wsgiResult = .error e) :
    (middlewareCall s).2 = CallOutcome.raised e ∧
    statusEvents (middlewareCall s).1 =
      (if s.recording then [(SpanStatus.error, excStr e)] else []) ∧
    (middlewareCall s).1.count Ev.spanEnd = 1 ∧
    (middlewareCall s).1.count Ev.detach = (if s.token.isSome then 1 else 0) ∧
    ∃ pre post, (middlewareCall s).1 =
      pre ++ ((if s.recording then [Ev.setStatus .error (excStr e)] else []) ++
        Ev.spanEnd :: ((if s.token.isSome then [Ev.detach] else []) ++ post)) ∧
      Ev.spanEnd ∉ pre := by
  unfold middlewareCall
  simp only [h, he]
  refine ⟨by trivial, ?_, ?_, ?_,
    preludeEvs s ++
      [Ev.counterAdd 1 (parse_active_request_count_attrs ra), Ev.wsgiCall],
    [Ev.histRecord (max s.elapsedMs 0)
        (durationAttrsAfterApp s (parse_duration_attrs ra)),
     Ev.counterAdd (-1) (parse_active_request_count_attrs ra)],
    ?_, ?_⟩
  · simp only [statusEvents_append, statusEvents_prelude, List.nil_append]
    cases hr : s.recording <;> cases ht : s.token <;> rfl
  · simp only [List.count_append, count_prelude_spanEnd]
    cases hr : s.recording <;> cases ht : s.token <;> rfl
  · simp only [List.count_append, count_prelude_detach]
    cases hr : s.recording <;> cases ht : s.token <;> rfl
  · cases hr : s.recording <;> cases ht : s.token <;> simp
  · intro hmem
    rcases List.mem_append.mp hmem with hm | hm
    · exact spanEnd_not_mem_prelude s hm
    · simp at hm

/-- A concrete invocation with a recording span whose wrapped callable
raises. -/
def c5Recording : CallScenario :=
  { environ := [("REQUEST_METHOD", "GET")], captureAll := false,
    recording := true, isServer := true, token := some 0,
    customReqAttrs := [], hasReqHook := false,
    wsgiResult := .error (.valueError "boom"), appStatus := Option.none,
    elapsedMs := 2 }

/-- C5, witness: on a recording span the error status, span end, detach
and re-raise all happen, in order. -/
theorem C5_witness :
    (middlewareCall c5Recording).2 =
      CallOutcome.raised (PyExc.valueError "boom") ∧
    statusEvents (middlewareCall c5Recording).1 =
      [(SpanStatus.error, "boom")] ∧
    (middlewareCall c5Recording).1.count Ev.spanEnd = 1 ∧
    (middlewareCall c5Recording).1.count Ev.detach = 1 ∧
    ∃ pre post, (middlewareCall c5Recording).1 =
      pre ++ ([Ev.setStatus .error "boom"] ++
        Ev.spanEnd :: ([Ev.detach] ++ post)) ∧
      Ev.spanEnd ∉ pre :=
  C5_exception_path_amended c5Recording _ _ rfl rfl

/-! ## C6: order of operations in the wrapped `start_response` -/

/-- C6: invoked with a status line (a string containing a space, as
PEP 3333 status strings are), the wrapped callback performs, in order:
the response attributes, the duration-attribute status write (only when
the status parses), the custom response-header attachment (only for a
recording server span with a non-empty attribute set), the user response
hook (only when present), and finally the original callback with every
argument unchanged, returning its result. -/
theorem C6_start_response_order (s : SRScenario) (pre post : String)
    (hs : splitOnceSpace s.status = some (pre, post)) :
    ∃ evs1, add_response_attributes s.recording s.status = Except.ok evs1 ∧
      start_response_wrapped s = Except.ok
        (evs1 ++
          (if s.recording ∧ s.isServer ∧ 0 < s.customRespAttrs.length then
             [Ev.setAttrsEv s.customRespAttrs]
           else []) ++
          (if s.hasHook then [Ev.respHook s.status s.responseHeaders]
           else []) ++
          [Ev.origCall s.status s.responseHeaders s.args],
         (match pyStrToInt pre with
          | some c => dictSet s.durationAttrs "http.status_code" (PyVal.int c)
          | Option.none => s.durationAttrs),
         s.origResult) := by
  have h2 : parse_status_code s.status = .ok (pyStrToInt pre) := by
    unfold parse_status_code
    rw [hs]
  have hadd : ∃ evs1,
      add_response_attributes s.recording s.status = Except.ok evs1 := by
    unfold add_response_attributes
    cases hr : s.recording
    · exact ⟨[], rfl⟩
    · simp only [hs, Bool.not_true]
      cases pyStrToInt pre <;> exact ⟨_, rfl⟩
  obtain ⟨evs1, h1⟩ := hadd
  refine ⟨evs1, h1, ?_⟩
  unfold start_response_wrapped
  rw [h1, h2]
  simp only [bind, Except.bind, pure, Except.pure]
  cases hr : s.recording <;> cases hsv : s.isServer <;>
    by_cases hl : 0 < s.customRespAttrs.length <;>
      cases hh : s.hasHook <;>
        simp [hr, hsv, hl, hh]

/-- The `start_response` invocation of the end-to-end example: status
`"201 Created"` on a recording server span with one captured response
header and a user hook. -/
def c6Scenario : SRScenario :=
  { recording := true, isServer := true, status := "201 Created",
    responseHeaders := [("Content-Type", "application/json")],
    args := ["exc_info"], hasHook := true,
    customRespAttrs :=
      [("http.response.header.content_type", .str "application/json")],
    durationAttrs := [], origResult := 5 }

/-- C6, witness: on the concrete scenario the wrapper performs all five
steps in order and returns the original callback's result. -/
theorem C6_witness :
    splitOnceSpace "201 Created" = some ("201", "Created") ∧
    ∃ evs1, add_response_attributes true "201 Created" = Except.ok evs1 ∧
      start_response_wrapped c6Scenario = Except.ok
        (evs1 ++
          [Ev.setAttrsEv
            [("http.response.header.content_type",
              .str "application/json")]] ++
          [Ev.respHook "201 Created" [("Content-Type", "application/json")]] ++
          [Ev.origCall "201 Created" [("Content-Type", "application/json")]
            ["exc_info"]],
         [("http.status_code", PyVal.int 201)], 5) :=
  ⟨rfl, C6_start_response_order c6Scenario "201" "Created" rfl⟩

/-! ## C1: generator cleanup -/

theorem runGen_finished (ctx : GenCtx) (ops : List GenOp) :
    runGen ctx GenSt.finished ops = ([], GenSt.finished) := by
  induction ops with
  | nil => rfl
  | cons op rest ih => cases op <;> simp [runGen, genStep, ih]

theorem tailPropagate_zero (ctx : GenCtx) (items : List String) :
    tailPropagate ctx items 0 = [] := by
  unfold tailPropagate
  simp

theorem tailPropagate_cons (ctx : GenCtx) (c : String) (rest : List String)
    (n : Nat) : tailPropagate ctx (c :: rest) (n + 1) = tailPropagate ctx rest n := by
  unfold tailPropagate
  simp [Nat.succ_lt_succ_iff]

theorem planDelegatedClose_cons (ctx : GenCtx) (c : String)
    (rest : List String) (n : Nat) :
    planDelegatedClose ctx (c :: rest) (n + 1) =
      planDelegatedClose ctx rest n := by
  unfold planDelegatedClose
  simp [Nat.succ_lt_succ_iff]

/-- Closed form of a run from a suspended (started) generator under the
pull-then-close plan: the pulled chunks; then, when the pulls stopped
short of the iterable's tail, the close delegated to the sub-iterator by
the yield-from machinery; then exactly one `finally` cleanup block; then
— only when the consumer reaches a raising tail — the propagated
exception. -/
theorem runGen_suspended (ctx : GenCtx) (items : List String) (n : Nat) :
    runGen ctx (GenSt.suspended items) (consumePlan n) =
      ((items.take n).map Ev.yieldChunk ++ planDelegatedClose ctx items n ++
        cleanupEvs ctx ++ tailPropagate ctx items n, GenSt.finished) := by
  induction n generalizing items with
  | zero =>
      simp [consumePlan, runGen, genStep, tailPropagate_zero,
        planDelegatedClose]
  | succ n ih =>
      cases items with
      | nil =>
          cases ht : ctx.tail <;>
            simp [consumePlan, List.replicate_succ, runGen, genStep, stepBody,
              ht, runGen_finished, tailPropagate, planDelegatedClose]
      | cons c rest =>
          have ih2 := ih rest
          simp only [consumePlan] at ih2
          simp [consumePlan, List.replicate_succ, runGen, genStep, stepBody,
            ih2, tailPropagate_cons, planDelegatedClose_cons, List.map_take]

/-- The first `next` behaves identically on a created and a suspended
generator: both run the body. -/
theorem runGen_created_succ (ctx : GenCtx) (items : List String) (n : Nat) :
    runGen ctx (GenSt.created items) (consumePlan (n + 1)) =
      runGen ctx (GenSt.suspended items) (consumePlan (n + 1)) := by
  cases items <;>
    simp [consumePlan, List.replicate_succ, runGen, genStep, stepBody]

theorem count_yieldMap (l : List String) (x : Ev)
    (hx : ∀ c, x ≠ Ev.yieldChunk c) : (l.map Ev.yieldChunk).count x = 0 := by
  rw [List.count_eq_zero]
  intro hmem
  obtain ⟨c, -, hc⟩ := List.mem_map.mp hmem
  exact hx c hc.symm

theorem count_tailPropagate (ctx : GenCtx) (items : List String) (n : Nat)
    (x : Ev) (hx : ∀ e, x ≠ Ev.propagate e) :
    (tailPropagate ctx items n).count x = 0 := by
  unfold tailPropagate
  split
  · cases ht : ctx.tail
    · rfl
    · rename_i e
      rw [List.count_eq_zero]
      intro hmem
      rw [List.mem_singleton] at hmem
      exact hx e hmem
  · rfl

theorem count_planDelegated (ctx : GenCtx) (items : List String) (n : Nat)
    (x : Ev) (hx : x ≠ Ev.closeIter) :
    (planDelegatedClose ctx items n).count x = 0 := by
  unfold planDelegatedClose delegatedCloseEvs
  split
  · rfl
  · split
    · rw [List.count_eq_zero]
      intro hmem
      rw [List.mem_singleton] at hmem
      exact hx hmem
    · rfl

theorem count_planDelegated_closeIter (ctx : GenCtx) (items : List String)
    (n : Nat) :
    (planDelegatedClose ctx items n).count Ev.closeIter =
      (if items.length < n then 0 else if ctx.closable then 1 else 0) := by
  unfold planDelegatedClose delegatedCloseEvs
  by_cases hlen : items.length < n
  · simp [hlen]
  · by_cases hcl : ctx.closable <;> simp [hlen, hcl]

theorem count_cleanup_spanEnd (ctx : GenCtx) :
    (cleanupEvs ctx).count Ev.spanEnd = 1 := by
  obtain ⟨cl, tk, tl⟩ := ctx
  cases cl <;> cases tk <;> rfl

theorem count_cleanup_detach (ctx : GenCtx) :
    (cleanupEvs ctx).count Ev.detach =
      (if ctx.token.isSome then 1 else 0) := by
  obtain ⟨cl, tk, tl⟩ := ctx
  cases cl <;> cases tk <;> rfl

theorem count_cleanup_closeIter (ctx : GenCtx) :
    (cleanupEvs ctx).count Ev.closeIter =
      (if ctx.closable then 1 else 0) := by
  obtain ⟨cl, tk, tl⟩ := ctx
  cases cl <;> cases tk <;> rfl

/-- C1, counterexample: a consuming server may, as PEP 3333 allows, close
the returned generator without ever requesting a chunk.  A Python
generator closed before its first `next` never runs its body, so the
`finally` block never runs: no span end, no detach, no close of the
underlying iterable — the claim's "exactly once" fails for this
abandoned-early consumption. -/
theorem C1_counterexample :
    (runGen ⟨true, some 0, IterTail.stop⟩ (GenSt.created ["chunk"])
        [GenOp.close]).1.count Ev.spanEnd = 0 ∧
    (runGen ⟨true, some 0, IterTail.stop⟩ (GenSt.created ["chunk"])
        [GenOp.close]).1.count Ev.detach = 0 :=
  ⟨rfl, rfl⟩

/-- C1, amended: once the consuming server has requested at least one
chunk, the span end and the context detach (when a token exists) happen
exactly once, after the underlying iterable has been closed, whether the
body is then fully consumed, abandoned early (closed), or the underlying
iterable raises during consumption; in the raising case the cleanup
events precede the exception's propagation out of the wrapper, which is
the trace's final event.  A closable iterable is closed once when
consumption reaches its tail, and twice on early abandonment — once by
the yield-from machinery's delegated close (PEP 380) and once by the
`finally` block. -/
theorem C1_generator_cleanup_amended (ctx : GenCtx) (items : List String)
    (n : Nat) :
    runGen ctx (GenSt.created items) (consumePlan (n + 1)) =
      ((items.take (n + 1)).map Ev.yieldChunk ++
        planDelegatedClose ctx items (n + 1) ++ cleanupEvs ctx ++
        tailPropagate ctx items (n + 1), GenSt.finished) ∧
    (runGen ctx (GenSt.created items)
        (consumePlan (n + 1))).1.count Ev.spanEnd = 1 ∧
    (runGen ctx (GenSt.created items)
        (consumePlan (n + 1))).1.count Ev.detach =
      (if ctx.token.isSome then 1 else 0) ∧
    (runGen ctx (GenSt.created items)
        (consumePlan (n + 1))).1.count Ev.closeIter =
      (if ctx.closable then
        (if items.length < n + 1 then 1 else 2) else 0) := by
  have hmain : runGen ctx (GenSt.created items) (consumePlan (n + 1)) =
      ((items.take (n + 1)).map Ev.yieldChunk ++
        planDelegatedClose ctx items (n + 1) ++ cleanupEvs ctx ++
        tailPropagate ctx items (n + 1), GenSt.finished) := by
    rw [runGen_created_succ, runGen_suspended]
  refine ⟨hmain, ?_, ?_, ?_⟩ <;> rw [hmain] <;> simp only [List.count_append]
  · rw [count_yieldMap _ _ (fun c => by simp),
      count_planDelegated _ _ _ _ (by simp),
      count_tailPropagate _ _ _ _ (fun e => by simp), count_cleanup_spanEnd]
  · rw [count_yieldMap _ _ (fun c => by simp),
      count_planDelegated _ _ _ _ (by simp),
      count_tailPropagate _ _ _ _ (fun e => by simp), count_cleanup_detach]
    simp
  · rw [count_yieldMap _ _ (fun c => by simp),
      count_planDelegated_closeIter,
      count_tailPropagate _ _ _ _ (fun e => by simp), count_cleanup_closeIter]
    by_cases hcl : ctx.closable <;> by_cases hlen : items.length < n + 1 <;>
      simp [hcl, hlen]

end Wsgi
